import Mathlib

/-!
Shallow embedding of the Todo_App FastAPI + MongoDB backend
(`app/models.py`, `app/main.py`, `schemas/todo.py`, `routes/todo.py`).

Modelling conventions:
* MongoDB `ObjectId` identities are modelled as `Nat`; timestamps
  (`datetime.now()`) are modelled as `Nat` and passed explicitly as a `now`
  argument to each handler that reads the clock.
* A Python value that may be `None` is an `Option`; a dictionary key that may
  be absent is one more `Option` layer (so `Option (Option α)` distinguishes
  "key absent" from "key present with value null").
* The Mongo collection is a `List TodoDoc`; `find_one` / `update_one` /
  `delete_one` act on the first document whose `_id` matches, as the
  single-document Mongo operations do (`_id` is unique in a real collection).
* Each route handler returns the HTTP outcome (`Except HTTPException _`)
  together with the collection state after the call, so that "raises before
  any write" is visible as an unchanged collection.
-/

/-- Stored MongoDB document for a todo, shape produced by
`create_todo_document` plus the `_id` the store assigns at insertion. -/
structure TodoDoc where
  id : Nat
  title : String
  description : Option String
  completed : Bool
  created_at : Nat
  updated_at : Nat
  deleted : Bool
  deleted_at : Option Nat
deriving Repr, DecidableEq

/-- A stored document minus the `_id` field: what `create_todo_document`
returns before `insert_one` assigns an identity. -/
structure TodoFields where
  title : String
  description : Option String
  completed : Bool
  created_at : Nat
  updated_at : Nat
  deleted : Bool
  deleted_at : Option Nat
deriving Repr, DecidableEq

/-- Schema `TodoCreate` (= `TodoBase`) from `schemas/todo.py`: `title : str`,
`description : Optional[str] = None`, `completed : bool = False`. -/
structure TodoCreate where
  title : String
  description : Option String := none
  completed : Bool := false
deriving Repr, DecidableEq

/-- Result of `todo.model_dump()` on a `TodoCreate`: a dict in which every
schema field is a present key (pydantic `model_dump` includes defaulted
fields), so `description` is present-with-value (possibly null) and
`completed` is present-with-value. Outer `Option` = key presence. -/
structure TodoDict where
  title : String
  description : Option (Option String)
  completed : Option Bool
deriving Repr, DecidableEq

/-- Embedding of `todo.model_dump()` for the create route: all keys present. -/
def model_dump (t : TodoCreate) : TodoDict :=
  { title := t.title, description := some t.description, completed := some t.completed }

/-- Embedding of `create_todo_document` (`app/models.py`): builds the stored
shape with `now` timestamps; `todo_dict.get("description", "")` and
`todo_dict.get("completed", False)` supply defaults only when the key is
absent from the dict. -/
def create_todo_document (todo_dict : TodoDict) (now : Nat) : TodoFields :=
  { title := todo_dict.title
  , description := todo_dict.description.getD (some "")
  , completed := todo_dict.completed.getD false
  , created_at := now
  , updated_at := now
  , deleted := false
  , deleted_at := none }

/-- Schema `TodoResponse` from `schemas/todo.py`: the wire shape, with the
identity exposed as a string `id`. -/
structure TodoResponse where
  id : String
  title : String
  description : Option String
  completed : Bool
  created_at : Nat
  updated_at : Nat
  deleted : Bool
  deleted_at : Option Nat
deriving Repr, DecidableEq

/-- Embedding of `format_todo_response` (`app/models.py`) on a non-empty
document: set `id = str(_id)` and drop `_id`. The source's empty-dict
branch (`if not todo_document: return {}`) is handled at each call site,
where the document comes from an `Option`-returning `find_one`. -/
def format_todo_response (d : TodoDoc) : TodoResponse :=
  { id := toString d.id
  , title := d.title
  , description := d.description
  , completed := d.completed
  , created_at := d.created_at
  , updated_at := d.updated_at
  , deleted := d.deleted
  , deleted_at := d.deleted_at }

/-- Mongo `find_one({"_id": obj_id})`: first document with the given id. -/
def find_one (coll : List TodoDoc) (objId : Nat) : Option TodoDoc :=
  coll.find? (fun d => d.id == objId)

/-- Mongo `insert_one`: append the document, with the id the store assigns. -/
def insert_one (coll : List TodoDoc) (newId : Nat) (f : TodoFields) : List TodoDoc :=
  coll ++ [{ id := newId, title := f.title, description := f.description
           , completed := f.completed, created_at := f.created_at
           , updated_at := f.updated_at, deleted := f.deleted
           , deleted_at := f.deleted_at }]

/-- Mongo `update_one({"_id": objId}, {"$set": ...})`: apply the field update
`f` to the first document whose id matches, leave the rest untouched. -/
def update_one (coll : List TodoDoc) (objId : Nat) (f : TodoDoc → TodoDoc) : List TodoDoc :=
  match coll with
  | [] => []
  | d :: rest => if d.id == objId then f d :: rest else d :: update_one rest objId f

/-- Mongo `delete_one({"_id": objId})`: remove the first matching document. -/
def delete_one (coll : List TodoDoc) (objId : Nat) : List TodoDoc :=
  match coll with
  | [] => []
  | d :: rest => if d.id == objId then rest else d :: delete_one rest objId

/-- HTTP error raised by a handler (`fastapi.HTTPException`). -/
structure HTTPException where
  status_code : Nat
  detail : String
deriving Repr, DecidableEq

deriving instance DecidableEq for Except

/-- Accumulate the numeric value of a digit string, failing on the first
non-digit character. -/
def parseDigits : List Char → Nat → Option Nat
  | [], acc => some acc
  | c :: cs, acc =>
    if c.isDigit then parseDigits cs (acc * 10 + (c.toNat - 48)) else none

/-- Model of `bson.ObjectId(todo_id)` parsing (external library code): the
path identifier parses into the store identity type iff it is a non-empty
digit string; an unparsable identifier raises, which every route maps to
400. -/
def parseObjectId (s : String) : Option Nat :=
  match s.data with
  | [] => none
  | cs => parseDigits cs 0

/-- Schema `TodoUpdate` from `schemas/todo.py`: all three fields optional.
Outer `Option` = field explicitly set in the request (`exclude_unset`
distinguishes this), inner `Option` = the set value may be null. -/
structure TodoUpdate where
  title : Option (Option String) := none
  description : Option (Option String) := none
  completed : Option (Option Bool) := none
deriving Repr, DecidableEq

/-- One entry of `{k: v for k, v in todo.model_dump(exclude_unset=True).items()
if v is not None}`: the field survives into `update_data` iff it was
explicitly set and its value is not null. -/
def effField {α : Type} (x : Option (Option α)) : Option α :=
  match x with
  | some (some v) => some v
  | _ => none

/-- Whether `update_data` is non-empty for a given `TodoUpdate`. -/
def updateNonEmpty (u : TodoUpdate) : Bool :=
  (effField u.title).isSome || (effField u.description).isSome ||
    (effField u.completed).isSome

/-- The `$set` document of the update route applied to a stored document:
set each field present in `update_data`, plus `updated_at = now`. -/
def applySet (u : TodoUpdate) (now : Nat) (d : TodoDoc) : TodoDoc :=
  { d with
    title := (effField u.title).getD d.title
  , description := ((effField u.description).map some).getD d.description
  , completed := (effField u.completed).getD d.completed
  , updated_at := now }

/-- Pagination envelope `PaginatedResponse` from `schemas/todo.py`. -/
structure PaginatedResponse where
  current_page : Nat
  total_pages : Nat
  items_per_page : Nat
  total_items : Nat
  data : List TodoResponse
deriving Repr, DecidableEq

/-- Query filter of the list route: `{}` when `include_deleted`, else
`{"deleted": False}`. -/
def query_filter (include_deleted : Bool) (coll : List TodoDoc) : List TodoDoc :=
  if include_deleted then coll else coll.filter (fun d => d.deleted == false)

/-- Comparator realising Mongo `sort [("created_at", -1)]` (descending). -/
def dateDescLe (a b : TodoDoc) : Bool :=
  b.created_at ≤ a.created_at

/-- Comparator realising Mongo `sort [("completed", -1)]` (descending:
`true` sorts before `false`). -/
def completedDescLe (a b : TodoDoc) : Bool :=
  !b.completed || a.completed

/-- Sorting step of the list route: descending `created_at` for
`sort_by == "date"`, descending `completed` for `sort_by == "completed"`,
no sort otherwise. -/
def apply_sort (sort_by : Option String) (docs : List TodoDoc) : List TodoDoc :=
  match sort_by with
  | some "date" => docs.mergeSort dateDescLe
  | some "completed" => docs.mergeSort completedDescLe
  | _ => docs

/-- Embedding of the `POST /todos/` handler `create_todo` (`routes/todo.py`):
dump the validated input, build the stored document, insert it (the store
assigns `newId`), re-read by identity and return the formatted response.
The `none` branch of the re-read is unreachable for a fresh `newId`; the
source's `except` clause maps any store failure to a 500. -/
def create_todo (todo : TodoCreate) (newId : Nat) (now : Nat) (coll : List TodoDoc) :
    Except HTTPException TodoResponse × List TodoDoc :=
  let todo_dict := model_dump todo
  let todo_document := create_todo_document todo_dict now
  let coll' := insert_one coll newId todo_document
  match find_one coll' newId with
  | some created_todo => (.ok (format_todo_response created_todo), coll')
  | none => (.error ⟨500, "Database error"⟩, coll')

/-- Embedding of the `GET /todos/` handler `read_todos` (`routes/todo.py`):
count against the filter, compute `total_pages` and `skip`, return an empty
page early when `skip >= total_items`, otherwise sort, skip/limit, and map
to the response shape. `items_per_page` and `page_number` arrive through
`Query(gt=0)` validation, so callers pass positive values. -/
def read_todos (include_deleted : Bool) (sort_by : Option String)
    (items_per_page page_number : Nat) (coll : List TodoDoc) : PaginatedResponse :=
  let filtered := query_filter include_deleted coll
  let total_items := filtered.length
  let total_pages := (total_items + items_per_page - 1) / items_per_page
  let skip := (page_number - 1) * items_per_page
  if total_items ≤ skip then
    { current_page := page_number, total_pages := total_pages
    , items_per_page := items_per_page, total_items := total_items, data := [] }
  else
    let todos := (((apply_sort sort_by filtered).drop skip).take items_per_page).map
      format_todo_response
    { current_page := page_number, total_pages := total_pages
    , items_per_page := items_per_page, total_items := total_items, data := todos }

/-- Embedding of the `GET /todos/{todo_id}` handler `read_todo`
(`routes/todo.py`): 400 on unparsable id, 404 when absent, 404 when
soft-deleted, otherwise the formatted document. Read-only, so no
collection is returned. -/
def read_todo (todo_id : String) (coll : List TodoDoc) :
    Except HTTPException TodoResponse :=
  match parseObjectId todo_id with
  | none => .error ⟨400, "Invalid ID format"⟩
  | some obj_id =>
    match find_one coll obj_id with
    | none => .error ⟨404, "Todo not found"⟩
    | some todo =>
      if todo.deleted then .error ⟨404, "Todo was deleted"⟩
      else .ok (format_todo_response todo)

/-- Embedding of the `PUT /todos/{todo_id}` handler `update_todo`
(`routes/todo.py`): 400 on unparsable id, 404 when absent, 400 when the
record is soft-deleted; otherwise apply the sparse `$set` only when
`update_data` is non-empty, then re-read and return. The re-read cannot
miss after an in-place update; that dead branch carries the source's
store-failure 500. -/
def update_todo (todo_id : String) (todo : TodoUpdate) (now : Nat)
    (coll : List TodoDoc) : Except HTTPException TodoResponse × List TodoDoc :=
  match parseObjectId todo_id with
  | none => (.error ⟨400, "Invalid ID format"⟩, coll)
  | some obj_id =>
    match find_one coll obj_id with
    | none => (.error ⟨404, "Todo not found"⟩, coll)
    | some db_todo =>
      if db_todo.deleted then (.error ⟨400, "Cannot update deleted todo"⟩, coll)
      else
        let coll' := if updateNonEmpty todo then
            update_one coll obj_id (applySet todo now)
          else coll
        match find_one coll' obj_id with
        | some updated_todo => (.ok (format_todo_response updated_todo), coll')
        | none => (.error ⟨500, "Database error"⟩, coll')

/-- Embedding of the `DELETE /todos/{todo_id}` handler `delete_todo`
(`routes/todo.py`): 400 on unparsable id, 404 when absent; then either
remove the document (`permanent`) or `$set` `deleted`/`deleted_at`, and in
both cases return the view of the document fetched *before* the write. -/
def delete_todo (todo_id : String) (permanent : Bool) (now : Nat)
    (coll : List TodoDoc) : Except HTTPException TodoResponse × List TodoDoc :=
  match parseObjectId todo_id with
  | none => (.error ⟨400, "Invalid ID format"⟩, coll)
  | some obj_id =>
    match find_one coll obj_id with
    | none => (.error ⟨404, "Todo not found"⟩, coll)
    | some db_todo =>
      let coll' := if permanent then delete_one coll obj_id
        else update_one coll obj_id
          (fun d => { d with deleted := true, deleted_at := some now })
      (.ok (format_todo_response db_todo), coll')

/-- Embedding of the `PUT /todos/{todo_id}/restore` handler `restore_todo`
(`routes/todo.py`): 400 on unparsable id, 404 when absent, 400 when the
record is not soft-deleted; otherwise clear `deleted`/`deleted_at`, re-read
and return the restored document. The dead re-read branch carries the
source's store-failure 500. Restore never reads the clock. -/
def restore_todo (todo_id : String) (coll : List TodoDoc) :
    Except HTTPException TodoResponse × List TodoDoc :=
  match parseObjectId todo_id with
  | none => (.error ⟨400, "Invalid ID format"⟩, coll)
  | some obj_id =>
    match find_one coll obj_id with
    | none => (.error ⟨404, "Todo not found"⟩, coll)
    | some db_todo =>
      if !db_todo.deleted then (.error ⟨400, "Todo is not deleted"⟩, coll)
      else
        let coll' := update_one coll obj_id
          (fun d => { d with deleted := false, deleted_at := none })
        match find_one coll' obj_id with
        | some restored_todo => (.ok (format_todo_response restored_todo), coll')
        | none => (.error ⟨500, "Database error"⟩, coll')

/-- Raw JSON body of a create request, before pydantic validation: each
field may be absent (outer `Option`) or present with a possibly-null value
(inner `Option`). -/
structure RawCreate where
  title : Option (Option String) := none
  description : Option (Option String) := none
  completed : Option (Option Bool) := none
deriving Repr, DecidableEq

/-- Pydantic validation of a create body against `TodoCreate`
(`schemas/todo.py`): `title : str` must be present and non-null (any
string, including the empty string, passes); `description` is optional and
nullable, defaulting to null; `completed` defaults to `false` when absent
but rejects an explicit null. A `none` result is a
`RequestValidationError`, which `validation_exception_handler`
(`app/main.py`) turns into an HTTP 400 before the route runs, so no record
is created. -/
def validate_create (raw : RawCreate) : Option TodoCreate :=
  match raw.title, raw.completed with
  | some (some t), none => some { title := t, description := raw.description.getD none }
  | some (some t), some (some b) =>
    some { title := t, description := raw.description.getD none, completed := b }
  | _, _ => none

/-- The soft-delete representation invariant: the `deleted` flag is set iff
`deleted_at` holds a timestamp. -/
def docInv (d : TodoDoc) : Prop :=
  d.deleted = true ↔ d.deleted_at ≠ none

instance (d : TodoDoc) : Decidable (docInv d) := by
  unfold docInv; infer_instance

/-- Re-reading the updated id after `update_one` yields the image under the
update of what `find_one` returned before, whenever the update does not
change `_id` (as `$set` documents never do). -/
theorem find_one_update_one (coll : List TodoDoc) (objId : Nat)
    (f : TodoDoc → TodoDoc) (hf : ∀ x, (f x).id = x.id) :
    find_one (update_one coll objId f) objId = (find_one coll objId).map f := by
  induction coll with
  | nil => rfl
  | cons c rest ih =>
    by_cases h : c.id = objId
    · simp [update_one, find_one, List.find?_cons, h, hf c]
    · simpa [update_one, find_one, List.find?_cons, h] using ih

/-- Every document of the collection after `update_one` is either an
untouched document of the old collection or the image of one. -/
theorem mem_update_one {d : TodoDoc} (coll : List TodoDoc) (objId : Nat)
    (f : TodoDoc → TodoDoc) (hd : d ∈ update_one coll objId f) :
    d ∈ coll ∨ ∃ x ∈ coll, d = f x := by
  induction coll with
  | nil => simp [update_one] at hd
  | cons c rest ih =>
    by_cases h : c.id = objId
    · simp [update_one, h] at hd
      rcases hd with h1 | h1
      · exact Or.inr ⟨c, List.mem_cons_self c rest, h1⟩
      · exact Or.inl (List.mem_cons_of_mem c h1)
    · simp [update_one, h] at hd
      rcases hd with h1 | h1
      · exact Or.inl (h1 ▸ List.mem_cons_self c rest)
      · rcases ih h1 with h2 | ⟨x, hx, hfx⟩
        · exact Or.inl (List.mem_cons_of_mem c h2)
        · exact Or.inr ⟨x, List.mem_cons_of_mem c hx, hfx⟩

/-- `delete_one` only removes documents, so membership persists backwards. -/
theorem mem_delete_one {d : TodoDoc} (coll : List TodoDoc) (objId : Nat)
    (hd : d ∈ delete_one coll objId) : d ∈ coll := by
  induction coll with
  | nil => simp [delete_one] at hd
  | cons c rest ih =>
    by_cases h : c.id = objId
    · simp [delete_one, h] at hd
      exact List.mem_cons_of_mem c hd
    · simp [delete_one, h] at hd
      rcases hd with h1 | h1
      · exact h1 ▸ List.mem_cons_self c rest
      · exact List.mem_cons_of_mem c (ih h1)

/-- Re-reading a freshly inserted identity finds the inserted document. -/
theorem find_one_insert_fresh (coll : List TodoDoc) (newId : Nat)
    (f : TodoFields) (hfresh : ∀ d ∈ coll, d.id ≠ newId) :
    find_one (insert_one coll newId f) newId =
      some { id := newId, title := f.title, description := f.description
           , completed := f.completed, created_at := f.created_at
           , updated_at := f.updated_at, deleted := f.deleted
           , deleted_at := f.deleted_at } := by
  induction coll with
  | nil => simp [insert_one, find_one]
  | cons c rest ih =>
    have hc : c.id ≠ newId := hfresh c (List.mem_cons_self c rest)
    have ih' := ih (fun d hd => hfresh d (List.mem_cons_of_mem c hd))
    simpa [insert_one, find_one, List.find?_cons, hc] using ih'

/-- The collection returned by the create route is always the old collection
with the freshly shaped document appended. -/
theorem create_todo_snd (t : TodoCreate) (newId now : Nat) (coll : List TodoDoc) :
    (create_todo t newId now coll).2 =
      insert_one coll newId (create_todo_document (model_dump t) now) := by
  simp only [create_todo]
  split <;> rfl

/-- The sparse update never touches the soft-delete fields, so it cannot
disturb the representation invariant. -/
theorem docInv_applySet (u : TodoUpdate) (now : Nat) (x : TodoDoc) :
    docInv (applySet u now x) ↔ docInv x := by
  simp [docInv, applySet]

/-- The update route leaves the collection unchanged or rewrites a single
id with the sparse `$set`. -/
theorem update_todo_snd (s : String) (u : TodoUpdate) (now : Nat)
    (coll : List TodoDoc) :
    (update_todo s u now coll).2 = coll ∨
      ∃ i, (update_todo s u now coll).2 = update_one coll i (applySet u now) := by
  rcases hp : parseObjectId s with _ | i
  · simp [update_todo, hp]
  · rcases hf : find_one coll i with _ | db
    · simp [update_todo, hp, hf]
    · by_cases hdel : db.deleted
      · simp [update_todo, hp, hf, hdel]
      · by_cases hne : updateNonEmpty u
        · refine Or.inr ⟨i, ?_⟩
          rcases hf2 : find_one (update_one coll i (applySet u now)) i with _ | upd <;>
            simp [update_todo, hp, hf, hdel, hne, hf2]
        · rcases hf2 : find_one coll i with _ | upd <;>
            simp [update_todo, hp, hf, hdel, hne, hf2]

/-- The soft-delete route leaves the collection unchanged or sets
`deleted`/`deleted_at` on a single id. -/
theorem delete_todo_snd (s : String) (now : Nat) (coll : List TodoDoc) :
    (delete_todo s false now coll).2 = coll ∨
      ∃ i, (delete_todo s false now coll).2 = update_one coll i
        (fun d => { d with deleted := true, deleted_at := some now }) := by
  rcases hp : parseObjectId s with _ | i
  · simp [delete_todo, hp]
  · rcases hf : find_one coll i with _ | db
    · simp [delete_todo, hp, hf]
    · exact Or.inr ⟨i, by simp [delete_todo, hp, hf]⟩

/-- The restore route leaves the collection unchanged or clears
`deleted`/`deleted_at` on a single id. -/
theorem restore_todo_snd (s : String) (coll : List TodoDoc) :
    (restore_todo s coll).2 = coll ∨
      ∃ i, (restore_todo s coll).2 = update_one coll i
        (fun d => { d with deleted := false, deleted_at := none }) := by
  rcases hp : parseObjectId s with _ | i
  · simp [restore_todo, hp]
  · rcases hf : find_one coll i with _ | db
    · simp [restore_todo, hp, hf]
    · by_cases hdel : db.deleted
      · refine Or.inr ⟨i, ?_⟩
        rcases hf2 : find_one (update_one coll i
            (fun d => { d with deleted := false, deleted_at := none })) i with _ | upd <;>
          simp [restore_todo, hp, hf, hdel, hf2]
      · simp [restore_todo, hp, hf, hdel]

/-- C1: every record reachable through the public operations satisfies
`deleted == true ⇔ deleted_at` non-null: create inserts a record with
`deleted = false, deleted_at = null`; soft delete and restore write both
fields in the same `$set`; update never touches either field — so each
operation maps a collection of invariant-respecting records to another
one. -/
theorem soft_delete_invariant_preserved (coll : List TodoDoc)
    (h : ∀ d ∈ coll, docInv d) :
    (∀ (t : TodoCreate) (newId now : Nat),
      ∀ d ∈ (create_todo t newId now coll).2, docInv d) ∧
    (∀ (s : String) (u : TodoUpdate) (now : Nat),
      ∀ d ∈ (update_todo s u now coll).2, docInv d) ∧
    (∀ (s : String) (now : Nat),
      ∀ d ∈ (delete_todo s false now coll).2, docInv d) ∧
    (∀ (s : String), ∀ d ∈ (restore_todo s coll).2, docInv d) := by
  refine ⟨?_, ?_, ?_, ?_⟩
  · intro t newId now d hd
    rw [create_todo_snd] at hd
    simp only [insert_one, List.mem_append, List.mem_singleton] at hd
    rcases hd with hd | hd
    · exact h d hd
    · subst hd
      simp [docInv, create_todo_document, model_dump]
  · intro s u now d hd
    rcases update_todo_snd s u now coll with he | ⟨i, he⟩
    · rw [he] at hd; exact h d hd
    · rw [he] at hd
      rcases mem_update_one coll i _ hd with h1 | ⟨x, hx, hfx⟩
      · exact h d h1
      · subst hfx
        exact (docInv_applySet u now x).mpr (h x hx)
  · intro s now d hd
    rcases delete_todo_snd s now coll with he | ⟨i, he⟩
    · rw [he] at hd; exact h d hd
    · rw [he] at hd
      rcases mem_update_one coll i _ hd with h1 | ⟨x, hx, hfx⟩
      · exact h d h1
      · subst hfx; simp [docInv]
  · intro s d hd
    rcases restore_todo_snd s coll with he | ⟨i, he⟩
    · rw [he] at hd; exact h d hd
    · rw [he] at hd
      rcases mem_update_one coll i _ hd with h1 | ⟨x, hx, hfx⟩
      · exact h d h1
      · subst hfx; simp [docInv]

/-- Sample active record used to instantiate hypotheses of the theorems. -/
def sampleActive : TodoDoc :=
  { id := 1, title := "buy milk", description := some "2 litres"
  , completed := false, created_at := 5, updated_at := 5
  , deleted := false, deleted_at := none }

/-- Sample soft-deleted record used to instantiate hypotheses. -/
def sampleDeleted : TodoDoc :=
  { id := 2, title := "water plants", description := none
  , completed := true, created_at := 9, updated_at := 9
  , deleted := true, deleted_at := some 10 }

/-- Sample collection holding one active and one soft-deleted record. -/
def sampleColl : List TodoDoc :=
  [sampleActive, sampleDeleted]

/-- C1 witness: the invariant-preservation theorem applied to the sample
collection, whose two records both satisfy the invariant. -/
theorem soft_delete_invariant_preserved_witness :
    (∀ (t : TodoCreate) (newId now : Nat),
      ∀ d ∈ (create_todo t newId now sampleColl).2, docInv d) ∧
    (∀ (s : String) (u : TodoUpdate) (now : Nat),
      ∀ d ∈ (update_todo s u now sampleColl).2, docInv d) ∧
    (∀ (s : String) (now : Nat),
      ∀ d ∈ (delete_todo s false now sampleColl).2, docInv d) ∧
    (∀ (s : String), ∀ d ∈ (restore_todo s sampleColl).2, docInv d) :=
  soft_delete_invariant_preserved sampleColl (by decide)

/-- C2: soft delete (`permanent == false`) of an existing record sets
`deleted = true` and `deleted_at = now` on that record in one `$set`,
leaving `updated_at` and every other field as they were, and returns the
response-shaped view of the record fetched *before* the write — so the
returned `deleted`/`deleted_at` are the pre-delete values. -/
theorem delete_soft_pre_delete_view (s : String) (now : Nat)
    (coll : List TodoDoc) (objId : Nat) (d : TodoDoc)
    (hp : parseObjectId s = some objId) (hf : find_one coll objId = some d) :
    delete_todo s false now coll =
      (.ok (format_todo_response d),
        update_one coll objId
          (fun x => { x with deleted := true, deleted_at := some now })) ∧
    find_one (delete_todo s false now coll).2 objId =
      some { d with deleted := true, deleted_at := some now } := by
  have h1 : delete_todo s false now coll =
      (.ok (format_todo_response d),
        update_one coll objId
          (fun x => { x with deleted := true, deleted_at := some now })) := by
    simp [delete_todo, hp, hf]
  refine ⟨h1, ?_⟩
  rw [h1]
  show find_one (update_one coll objId
      (fun x => { x with deleted := true, deleted_at := some now })) objId =
    some { d with deleted := true, deleted_at := some now }
  rw [find_one_update_one coll objId
      (fun x => { x with deleted := true, deleted_at := some now })
      (fun x => rfl), hf]
  rfl

/-- C2 witness: soft-deleting the sample active record at time 42. -/
theorem delete_soft_pre_delete_view_witness :
    delete_todo "1" false 42 sampleColl =
      (.ok (format_todo_response sampleActive),
        update_one sampleColl 1
          (fun x => { x with deleted := true, deleted_at := some 42 })) ∧
    find_one (delete_todo "1" false 42 sampleColl).2 1 =
      some { sampleActive with deleted := true, deleted_at := some 42 } :=
  delete_soft_pre_delete_view "1" 42 sampleColl 1 sampleActive (by decide) (by decide)

/-- C10: soft delete is not guarded on the record's soft-delete state:
applied to an already-deleted record it succeeds with no 400, overwrites
`deleted_at` with the current time, and returns the pre-delete view whose
`deleted` flag is already `true`. -/
theorem delete_soft_unguarded_on_deleted (s : String) (now : Nat)
    (coll : List TodoDoc) (objId : Nat) (d : TodoDoc)
    (hp : parseObjectId s = some objId) (hf : find_one coll objId = some d)
    (hdel : d.deleted = true) :
    delete_todo s false now coll =
      (.ok (format_todo_response d),
        update_one coll objId
          (fun x => { x with deleted := true, deleted_at := some now })) ∧
    (format_todo_response d).deleted = true ∧
    find_one (delete_todo s false now coll).2 objId =
      some { d with deleted := true, deleted_at := some now } := by
  have h1 : delete_todo s false now coll =
      (.ok (format_todo_response d),
        update_one coll objId
          (fun x => { x with deleted := true, deleted_at := some now })) := by
    simp [delete_todo, hp, hf]
  refine ⟨h1, by simp [format_todo_response, hdel], ?_⟩
  rw [h1]
  show find_one (update_one coll objId
      (fun x => { x with deleted := true, deleted_at := some now })) objId =
    some { d with deleted := true, deleted_at := some now }
  rw [find_one_update_one coll objId
      (fun x => { x with deleted := true, deleted_at := some now })
      (fun x => rfl), hf]
  rfl

/-- C10 witness: soft-deleting the already-deleted sample record
(its `deleted_at` was 10) at time 77. -/
theorem delete_soft_unguarded_on_deleted_witness :
    delete_todo "2" false 77 sampleColl =
      (.ok (format_todo_response sampleDeleted),
        update_one sampleColl 2
          (fun x => { x with deleted := true, deleted_at := some 77 })) ∧
    (format_todo_response sampleDeleted).deleted = true ∧
    find_one (delete_todo "2" false 77 sampleColl).2 2 =
      some { sampleDeleted with deleted := true, deleted_at := some 77 } :=
  delete_soft_unguarded_on_deleted "2" 77 sampleColl 2 sampleDeleted
    (by decide) (by decide) (by decide)

/-- C4: updating a soft-deleted record fails with 400
"Cannot update deleted todo" and restoring a non-deleted record fails with
400 "Todo is not deleted"; both errors are raised before any write, so the
collection comes back unchanged. -/
theorem update_restore_state_guards (s t : String) (u : TodoUpdate) (now : Nat)
    (coll : List TodoDoc) (objId objId2 : Nat) (d d2 : TodoDoc)
    (hp : parseObjectId s = some objId) (hf : find_one coll objId = some d)
    (hdel : d.deleted = true)
    (hp2 : parseObjectId t = some objId2) (hf2 : find_one coll objId2 = some d2)
    (hnd : d2.deleted = false) :
    update_todo s u now coll =
      (.error ⟨400, "Cannot update deleted todo"⟩, coll) ∧
    restore_todo t coll = (.error ⟨400, "Todo is not deleted"⟩, coll) := by
  constructor
  · simp [update_todo, hp, hf, hdel]
  · simp [restore_todo, hp2, hf2, hnd]

/-- C4 witness: the guards fire on the sample deleted record (update) and
the sample active record (restore). -/
theorem update_restore_state_guards_witness :
    update_todo "2" { completed := some (some true) } 9 sampleColl =
      (.error ⟨400, "Cannot update deleted todo"⟩, sampleColl) ∧
    restore_todo "1" sampleColl =
      (.error ⟨400, "Todo is not deleted"⟩, sampleColl) :=
  update_restore_state_guards "2" "1" { completed := some (some true) } 9
    sampleColl 2 1 sampleDeleted sampleActive
    (by decide) (by decide) (by decide) (by decide) (by decide) (by decide)

/-- C6: the get-by-id route returns 400 for an unparsable identifier, the
same 404 signal for an absent record and for a soft-deleted one
(differing only in message text), and the response-shaped record
otherwise. -/
theorem read_todo_outcomes (s0 s1 s2 s3 : String) (coll : List TodoDoc)
    (i1 i2 i3 : Nat) (d2 d3 : TodoDoc)
    (h0 : parseObjectId s0 = none)
    (h1 : parseObjectId s1 = some i1) (hf1 : find_one coll i1 = none)
    (h2 : parseObjectId s2 = some i2) (hf2 : find_one coll i2 = some d2)
    (hd2 : d2.deleted = true)
    (h3 : parseObjectId s3 = some i3) (hf3 : find_one coll i3 = some d3)
    (hd3 : d3.deleted = false) :
    read_todo s0 coll = .error ⟨400, "Invalid ID format"⟩ ∧
    read_todo s1 coll = .error ⟨404, "Todo not found"⟩ ∧
    read_todo s2 coll = .error ⟨404, "Todo was deleted"⟩ ∧
    read_todo s3 coll = .ok (format_todo_response d3) := by
  refine ⟨?_, ?_, ?_, ?_⟩
  · simp [read_todo, h0]
  · simp [read_todo, h1, hf1]
  · simp [read_todo, h2, hf2, hd2]
  · simp [read_todo, h3, hf3, hd3]

/-- C6 witness: the four outcomes on the sample collection, using the
unparsable id "zzz", the absent id 3, the deleted id 2 and the active
id 1. -/
theorem read_todo_outcomes_witness :
    read_todo "zzz" sampleColl = .error ⟨400, "Invalid ID format"⟩ ∧
    read_todo "3" sampleColl = .error ⟨404, "Todo not found"⟩ ∧
    read_todo "2" sampleColl = .error ⟨404, "Todo was deleted"⟩ ∧
    read_todo "1" sampleColl = .ok (format_todo_response sampleActive) :=
  read_todo_outcomes "zzz" "3" "2" "1" sampleColl 3 2 1 sampleDeleted sampleActive
    (by decide) (by decide) (by decide) (by decide) (by decide) (by decide)
    (by decide) (by decide) (by decide)

/-- C3: updating an existing non-deleted record applies exactly the fields
explicitly present and non-null in the input (`effField`), refreshes
`updated_at` iff at least one such field exists, and leaves id,
`created_at`, `deleted`, `deleted_at` — and every omitted or
explicitly-null field — untouched; with no effective field nothing is
written and the record comes back unchanged. -/
theorem update_applies_exact_fields (s : String) (u : TodoUpdate) (now : Nat)
    (coll : List TodoDoc) (objId : Nat) (d : TodoDoc)
    (hp : parseObjectId s = some objId) (hf : find_one coll objId = some d)
    (hnd : d.deleted = false) :
    (∃ d', update_todo s u now coll =
        (.ok (format_todo_response d'),
          if updateNonEmpty u then update_one coll objId (applySet u now)
          else coll) ∧
      d'.id = d.id ∧
      d'.title = (effField u.title).getD d.title ∧
      d'.description = ((effField u.description).map some).getD d.description ∧
      d'.completed = (effField u.completed).getD d.completed ∧
      d'.created_at = d.created_at ∧
      d'.updated_at = (if updateNonEmpty u then now else d.updated_at) ∧
      d'.deleted = d.deleted ∧
      d'.deleted_at = d.deleted_at) ∧
    (updateNonEmpty u = false →
      update_todo s u now coll = (.ok (format_todo_response d), coll)) := by
  by_cases hne : updateNonEmpty u
  · have hfu := find_one_update_one coll objId (applySet u now) (fun x => rfl)
    have heq : update_todo s u now coll =
        (.ok (format_todo_response (applySet u now d)),
          update_one coll objId (applySet u now)) := by
      simp [update_todo, hp, hf, hnd, hne, hfu]
    refine ⟨⟨applySet u now d, by rw [heq]; simp [hne], rfl, rfl, rfl, rfl, rfl,
      by simp [applySet, hne], rfl, rfl⟩, ?_⟩
    intro hcon
    rw [hne] at hcon
    exact absurd hcon (by simp)
  · have hne' : updateNonEmpty u = false := by simpa using hne
    have hflat := hne'
    simp only [updateNonEmpty, Bool.or_eq_false_iff] at hflat
    have ht : effField u.title = none :=
      Option.not_isSome_iff_eq_none.mp (by simp [hflat.1.1])
    have hd : effField u.description = none :=
      Option.not_isSome_iff_eq_none.mp (by simp [hflat.1.2])
    have hc : effField u.completed = none :=
      Option.not_isSome_iff_eq_none.mp (by simp [hflat.2])
    have heq : update_todo s u now coll =
        (.ok (format_todo_response d), coll) := by
      simp [update_todo, hp, hf, hnd, hne', hf]
    refine ⟨⟨d, by rw [heq]; simp [hne'], rfl, by simp [ht], by simp [hd],
      by simp [hc], rfl, by simp [hne'], rfl, rfl⟩, fun _ => heq⟩

/-- C3 witness: update the sample active record at time 33, setting a new
title, with description explicitly null (so it must be left untouched). -/
theorem update_applies_exact_fields_witness :
    (∃ d', update_todo "1"
        { title := some (some "buy oat milk"), description := some none } 33
        sampleColl =
        (.ok (format_todo_response d'),
          if updateNonEmpty
              { title := some (some "buy oat milk"), description := some none }
            then update_one sampleColl 1
              (applySet
                { title := some (some "buy oat milk"), description := some none }
                33)
          else sampleColl) ∧
      d'.id = sampleActive.id ∧
      d'.title = (effField (some (some "buy oat milk"))).getD sampleActive.title ∧
      d'.description =
        ((effField (some (none : Option String))).map some).getD
          sampleActive.description ∧
      d'.completed = (effField (none : Option (Option Bool))).getD
        sampleActive.completed ∧
      d'.created_at = sampleActive.created_at ∧
      d'.updated_at = (if updateNonEmpty
          { title := some (some "buy oat milk"), description := some none }
        then 33 else sampleActive.updated_at) ∧
      d'.deleted = sampleActive.deleted ∧
      d'.deleted_at = sampleActive.deleted_at) ∧
    (updateNonEmpty
        { title := some (some "buy oat milk"), description := some none } = false →
      update_todo "1"
        { title := some (some "buy oat milk"), description := some none } 33
        sampleColl = (.ok (format_todo_response sampleActive), sampleColl)) :=
  update_applies_exact_fields "1"
    { title := some (some "buy oat milk"), description := some none } 33
    sampleColl 1 sampleActive (by decide) (by decide) (by decide)

/-- C5 (evaluation at the failing input): creating `{title: "buy milk"}`
stores and returns `description = none` (JSON null), not the empty string
the spec promises. The `""` fallback inside `create_todo_document` is dead
because `model_dump` always emits the `description` key (with value null
when the field was not provided), and `dict.get` only falls back on an
absent key. Every other promised field value holds at this input:
`title = "buy milk"`, `completed = false`, `created_at = updated_at`,
`deleted = false`, `deleted_at = null`. -/
theorem create_description_defaults_to_null :
    (create_todo { title := "buy milk" } 1 0 []).1 =
      .ok { id := "1", title := "buy milk", description := none
          , completed := false, created_at := 0, updated_at := 0
          , deleted := false, deleted_at := none } ∧
    (create_todo { title := "buy milk" } 1 0 []).2 =
      [{ id := 1, title := "buy milk", description := none
       , completed := false, created_at := 0, updated_at := 0
       , deleted := false, deleted_at := none }] := by
  decide

/-- C9 counterexample: an empty-string title passes schema validation
(pydantic `title : str` carries no non-empty constraint), and the create
handler then happily stores a record with an empty title — so a create
request with `title = ""` is not rejected. -/
theorem empty_title_accepted :
    validate_create { title := some (some "") } =
      some { title := "", description := none, completed := false } ∧
    (create_todo { title := "" } 1 0 []).1 =
      .ok { id := "1", title := "", description := none, completed := false
          , created_at := 0, updated_at := 0, deleted := false
          , deleted_at := none } := by
  decide

/-- C9 amended: a create body whose `title` key is absent or null fails
schema validation — the validation handler answers HTTP 400 before the
route runs, so no record is created — while an empty-string title passes
validation and produces a record with an empty title. -/
theorem create_title_required (raw : RawCreate)
    (h : raw.title = none ∨ raw.title = some none) :
    validate_create raw = none ∧
    validate_create { title := some (some "") } =
      some { title := "", description := none, completed := false } := by
  refine ⟨?_, by decide⟩
  rcases h with h | h
  · simp [validate_create, h]
  · simp [validate_create, h]

/-- C9 witness: a body with no `title` key at all is rejected. -/
theorem create_title_required_witness :
    validate_create { title := none } = none ∧
    validate_create { title := some (some "") } =
      some { title := "", description := none, completed := false } :=
  create_title_required { title := none } (Or.inl rfl)

/-- Arithmetic bridge for the pagination formula: for a positive page size
the integer expression `(t + i - 1) / i` is exactly the ceiling of the
rational quotient `t / i`. -/
theorem ceil_formula (t i : Nat) (hi : 0 < i) :
    (t + i - 1) / i = ⌈(t : ℚ) / (i : ℚ)⌉₊ := by
  have hiq : (0 : ℚ) < i := by exact_mod_cast hi
  rw [← Nat.ceilDiv_eq_add_pred_div]
  apply le_antisymm
  · rw [ceilDiv_le_iff_le_smul hi, smul_eq_mul]
    have h1 : (t : ℚ) / i ≤ (⌈(t : ℚ) / i⌉₊ : ℚ) := Nat.le_ceil _
    have h2 : (t : ℚ) ≤ (i : ℚ) * (⌈(t : ℚ) / i⌉₊ : ℚ) := by
      rw [div_le_iff₀ hiq] at h1
      linarith
    exact_mod_cast h2
  · rw [Nat.ceil_le, div_le_iff₀ hiq]
    have h3 : t ≤ i • (t ⌈/⌉ i) := le_smul_ceilDiv hi
    have h4 : t ≤ i * (t ⌈/⌉ i) := by simpa [smul_eq_mul] using h3
    have h5 : (t : ℚ) ≤ (i : ℚ) * ((t ⌈/⌉ i : Nat) : ℚ) := by exact_mod_cast h4
    linarith

/-- C7: when `skip = (page_number - 1) * items_per_page` reaches
`total_items`, the list route returns an empty data page that still
carries the requested page number and the filter-derived totals; and for
every non-negative total and positive page size the `total_pages` formula
`(total_items + items_per_page - 1) // items_per_page` is exactly
`ceil(total_items / items_per_page)`. -/
theorem read_todos_empty_page (include_deleted : Bool) (sort_by : Option String)
    (items_per_page page_number : Nat) (coll : List TodoDoc)
    (hskip : (query_filter include_deleted coll).length ≤
      (page_number - 1) * items_per_page) :
    read_todos include_deleted sort_by items_per_page page_number coll =
      { current_page := page_number
      , total_pages :=
          ((query_filter include_deleted coll).length + items_per_page - 1) /
            items_per_page
      , items_per_page := items_per_page
      , total_items := (query_filter include_deleted coll).length
      , data := [] } ∧
    (∀ t i : Nat, 0 < i → (t + i - 1) / i = ⌈(t : ℚ) / (i : ℚ)⌉₊) := by
  refine ⟨?_, fun t i hi => ceil_formula t i hi⟩
  simp [read_todos, hskip]

/-- C7 witness: page 2 of 5-per-page over the sample collection, whose
non-deleted filter holds a single record, is the empty page. -/
theorem read_todos_empty_page_witness :
    read_todos false none 5 2 sampleColl =
      { current_page := 2
      , total_pages := ((query_filter false sampleColl).length + 5 - 1) / 5
      , items_per_page := 5
      , total_items := (query_filter false sampleColl).length
      , data := [] } ∧
    (∀ t i : Nat, 0 < i → (t + i - 1) / i = ⌈(t : ℚ) / (i : ℚ)⌉₊) :=
  read_todos_empty_page false none 5 2 sampleColl (by decide)

/-- Outside its two recognised values, `sort_by` leaves the query order
untouched. -/
theorem apply_sort_eq_of_ne (sort_by : Option String) (l : List TodoDoc)
    (hd : sort_by ≠ some "date") (hc : sort_by ≠ some "completed") :
    apply_sort sort_by l = l := by
  unfold apply_sort
  split
  · simp_all
  · simp_all
  · rfl

/-- The descending `created_at` comparator is transitive. -/
theorem dateDescLe_trans (a b c : TodoDoc) (h1 : dateDescLe a b)
    (h2 : dateDescLe b c) : dateDescLe a c := by
  simp only [dateDescLe, decide_eq_true_eq] at *
  omega

/-- The descending `created_at` comparator is total. -/
theorem dateDescLe_total (a b : TodoDoc) : dateDescLe a b || dateDescLe b a := by
  simp only [dateDescLe, Bool.or_eq_true, decide_eq_true_eq]
  omega

/-- The descending `completed` comparator is transitive. -/
theorem completedDescLe_trans (a b c : TodoDoc) (h1 : completedDescLe a b)
    (h2 : completedDescLe b c) : completedDescLe a c := by
  have key : ∀ x y z : Bool, (!y || x) → (!z || y) → (!z || x) := by decide
  exact key a.completed b.completed c.completed h1 h2

/-- The descending `completed` comparator is total. -/
theorem completedDescLe_total (a b : TodoDoc) :
    completedDescLe a b || completedDescLe b a := by
  have key : ∀ x y : Bool, ((!y || x) || (!x || y)) = true := by decide
  exact key a.completed b.completed

/-- C8: the page served by the list route is carved out of the filtered
collection — all records when `include_deleted`, only non-deleted ones
otherwise — after the requested ordering: some permutation `L` of the
filter result that is descending in `created_at` for `sort_by = "date"`,
descending in `completed` for `sort_by = "completed"`, and is the filter
result itself for any other `sort_by`; `data` is `L` with skip and limit
applied and each document formatted. -/
theorem read_todos_page_content (include_deleted : Bool) (sort_by : Option String)
    (items_per_page page_number : Nat) (coll : List TodoDoc) :
    ∃ L : List TodoDoc,
      L.Perm (query_filter include_deleted coll) ∧
      (include_deleted = false → ∀ d ∈ L, d.deleted = false) ∧
      (sort_by = some "date" →
        L.Pairwise (fun a b => b.created_at ≤ a.created_at)) ∧
      (sort_by = some "completed" →
        L.Pairwise (fun a b => b.completed = true → a.completed = true)) ∧
      (sort_by ≠ some "date" → sort_by ≠ some "completed" →
        L = query_filter include_deleted coll) ∧
      (read_todos include_deleted sort_by items_per_page page_number coll).data =
        ((L.drop ((page_number - 1) * items_per_page)).take items_per_page).map
          format_todo_response := by
  have hds : apply_sort (some "date") (query_filter include_deleted coll) =
      (query_filter include_deleted coll).mergeSort dateDescLe := rfl
  have hcs : apply_sort (some "completed") (query_filter include_deleted coll) =
      (query_filter include_deleted coll).mergeSort completedDescLe := rfl
  have hperm : (apply_sort sort_by (query_filter include_deleted coll)).Perm
      (query_filter include_deleted coll) := by
    by_cases hd : sort_by = some "date"
    · rw [hd, hds]
      exact List.mergeSort_perm _ _
    · by_cases hc : sort_by = some "completed"
      · rw [hc, hcs]
        exact List.mergeSort_perm _ _
      · rw [apply_sort_eq_of_ne sort_by _ hd hc]
  refine ⟨apply_sort sort_by (query_filter include_deleted coll),
    hperm, ?_, ?_, ?_, ?_, ?_⟩
  · intro hid d hdL
    have hdF : d ∈ query_filter include_deleted coll := hperm.mem_iff.mp hdL
    rw [hid] at hdF
    simp only [query_filter, Bool.false_eq_true, if_false] at hdF
    have := List.of_mem_filter hdF
    simpa using this
  · intro hd
    rw [hd, hds]
    have hs := @List.sorted_mergeSort TodoDoc dateDescLe dateDescLe_trans
      dateDescLe_total (query_filter include_deleted coll)
    exact hs.imp (fun h => by simpa [dateDescLe] using h)
  · intro hc
    rw [hc, hcs]
    have hs := @List.sorted_mergeSort TodoDoc completedDescLe completedDescLe_trans
      completedDescLe_total (query_filter include_deleted coll)
    refine hs.imp (fun h hb => ?_)
    have key : ∀ x y : Bool, (!y || x) = true → y = true → x = true := by decide
    exact key _ _ h hb
  · exact fun hd hc => apply_sort_eq_of_ne sort_by _ hd hc
  · by_cases hskip : (query_filter include_deleted coll).length ≤
        (page_number - 1) * items_per_page
    · have hlen := hperm.length_eq
      rw [List.drop_eq_nil_of_le (by omega)]
      simp [read_todos, hskip]
    · simp [read_todos, hskip]

/-- C8 witness: the date-sorted first page of the sample collection. -/
theorem read_todos_page_content_witness :
    ∃ L : List TodoDoc,
      L.Perm (query_filter false sampleColl) ∧
      (false = false → ∀ d ∈ L, d.deleted = false) ∧
      ((some "date" : Option String) = some "date" →
        L.Pairwise (fun a b => b.created_at ≤ a.created_at)) ∧
      ((some "date" : Option String) = some "completed" →
        L.Pairwise (fun a b => b.completed = true → a.completed = true)) ∧
      ((some "date" : Option String) ≠ some "date" →
        (some "date" : Option String) ≠ some "completed" →
        L = query_filter false sampleColl) ∧
      (read_todos false (some "date") 2 1 sampleColl).data =
        ((L.drop ((1 - 1) * 2)).take 2).map format_todo_response :=
  read_todos_page_content false (some "date") 2 1 sampleColl
